import Mathlib

/-!
Verification of llmeter's credential store, fetch orchestration,
provider fetch lifecycle and usage-bar rendering, shallowly embedded
from the Python source (`src/llmeter`).  Components whose module is
absent from the source tree (the `auth.py` store, `backend.py`
orchestrator, `models.py` result schema and the per-provider fetch
modules) are modelled from the specification; their doc comments say so.
-/

namespace Llmeter

/-- A JSON scalar value, as stored in `auth.json` credential records. -/
inductive JVal where
| str (s : String)
| num (n : Int)
| boolean (b : Bool)
| null
deriving DecidableEq, Repr

/-- A credential record: one JSON object of `auth.json`, kept as an
ordered field list so that provider-specific extra fields (such as
`accountId`) are preserved verbatim. -/
def Record : Type := List (String × JVal)

instance : DecidableEq Record := by
unfold Record
infer_instance

/-- Field lookup on an association list (Python `dict.get`). -/
def alookup {β : Type} : List (String × β) → String → Option β
| [], _ => none
| (k, v) :: rest, key => if k = key then some v else alookup rest key

/-- `rec.get(key)` on a credential record. -/
def lookupField (rec : Record) (key : String) : Option JVal :=
alookup rec key

/-- Python truthiness of `dict.get(key)`: `None`, `""`, `0`, `False`
and `null` are falsy. -/
def truthy : Option JVal → Bool
| some (JVal.str s) => s ≠ ""
| some (JVal.num n) => n ≠ 0
| some (JVal.boolean b) => b
| some JVal.null => false
| none => false

/-- Insert-or-replace on an association list: the whole-file
read-merge-write that `save_provider` performs. -/
def setEntry {β : Type} : List (String × β) → String → β → List (String × β)
| [], key, v => [(key, v)]
| (k, v') :: rest, key, v =>
  if k = key then (key, v) :: rest else (k, v') :: setEntry rest key v

/-- Modelled from the spec: the on-disk state of the credential store
(`auth.py` is absent from the source tree) — the provider-id → record
mapping of `auth.json` plus the file's permission bits (`none` while
the file has never been written). -/
structure AuthState where
  data : List (String × Record)
  mode : Option Nat
deriving DecidableEq

/-- The store before any save: no `auth.json` file. -/
def emptyAuthState : AuthState := { data := [], mode := none }

/-- Modelled from the spec: `auth.load_all` — returns the full mapping,
empty when the file is absent. -/
def load_all (st : AuthState) : List (String × Record) := st.data

/-- Modelled from the spec: `auth.save_provider` — merges the record
into the full mapping, rewrites the file and chmods it to owner-only
0600 (384). -/
def save_provider (st : AuthState) (id : String) (rec : Record) : AuthState :=
{ data := setEntry st.data id rec, mode := some 384 }

/-- Modelled from the spec: `auth.clear_provider` — removes the entry
if present, a no-op otherwise. -/
def clear_provider (st : AuthState) (id : String) : AuthState :=
{ st with data := st.data.filter (fun e => ¬ (e.1 = id)) }

/-- Modelled from the spec: `auth.load_provider` — looks up one entry
and returns absent when the entry's `type` is not in the recognized set
of the generic OAuth call site; per `test_load_provider_rejects_non_oauth`
an `api-key`-typed entry is rejected, an `oauth`-typed one accepted. -/
def load_provider (st : AuthState) (id : String) : Option Record :=
match alookup st.data id with
| none => none
| some rec =>
  if lookupField rec "type" = some (JVal.str "oauth") then some rec else none

/-- Modelled from the spec: `auth.is_expired` — true if `expires` is
missing, malformed (not an integer), or ≤ the current time in
milliseconds. -/
def is_expired (now_ms : Int) (rec : Record) : Bool :=
match lookupField rec "expires" with
| some (JVal.num e) => e ≤ now_ms
| _ => true

/-- One usage window of a `ProviderResult` (modelled from the spec:
`models.py` is absent from the source tree). -/
structure UsageWindow where
  used_percent : ℚ
  window_minutes : Option Nat := none
  resets_at : Option Int := none
deriving DecidableEq

/-- Cost sub-structure of a `ProviderResult`. -/
structure CostInfo where
  used : ℚ
  limit : ℚ
deriving DecidableEq

/-- Credits sub-structure of a `ProviderResult`. -/
structure CreditsInfo where
  remaining : ℚ
deriving DecidableEq

/-- Identity sub-structure of a `ProviderResult`. -/
structure IdentityInfo where
  account_email : Option String := none
  login_method : String
deriving DecidableEq

/-- Modelled from the spec: the normalized fetch result (`models.py` is
absent from the source tree).  When `error` is set the usage fields are
unset. -/
structure ProviderResult where
  provider_id : String
  primary : Option UsageWindow := none
  secondary : Option UsageWindow := none
  tertiary : Option UsageWindow := none
  tertiary_label : Option String := none
  cost : Option CostInfo := none
  credits : Option CreditsInfo := none
  identity : Option IdentityInfo := none
  error : Option String := none
deriving DecidableEq

/-- Modelled from the spec: `PROVIDERS[id].to_result()` — a blank
result carrying only the provider id. -/
def toResult (provider_id : String) : ProviderResult :=
{ provider_id := provider_id }

/-- `providers/subscription/base.py` — a subscription provider, with
the outcome of its two abstract members: `get_credentials` (the value
the coroutine resolves to, `none` when unavailable) and `_fetch` (its
returned result, or `Except.error (str e)` when it raises `e`). -/
structure SubscriptionProvider (α : Type) where
  provider_id : String
  get_credentials : Option α
  «_fetch» : α → Except String ProviderResult

/-- `SubscriptionProvider.no_credentials_error` from
`providers/subscription/base.py`. -/
def no_credentials_error (provider_id : String) : String :=
"No credentials found. Run `llmeter --login " ++ provider_id ++ "` to authenticate."

/-- `SubscriptionProvider.__call__` from `providers/subscription/base.py`:
resolve credentials → error result if missing; delegate to `_fetch`;
catch any unhandled exception → error result. -/
def SubscriptionProvider.call {α : Type} (p : SubscriptionProvider α) : ProviderResult :=
let result := toResult p.provider_id
match p.get_credentials with
| none => { result with error := some (no_credentials_error p.provider_id) }
| some creds =>
  match p.«_fetch» creds with
  | Except.ok r => r
  | Except.error e => { result with error := some e }

/-- Modelled from the spec: `backend.PROVIDER_FETCHERS` (`backend.py`
is absent from the source tree) together with each fetcher's outcome —
`none` for an id with no registered fetcher, otherwise the called
fetcher's returned result or the exception message it raises. -/
def Registry : Type := String → Option (Except String ProviderResult)

/-- Modelled from the spec: `backend.fetch_one` — an unknown id yields
a result `{provider_id, error: "Unknown provider: <id>"}` with no I/O;
a known fetcher runs wrapped so a raised exception becomes a
result-carried error. -/
def fetch_one (reg : Registry) (id : String) : ProviderResult :=
match reg id with
| none => { toResult id with error := some ("Unknown provider: " ++ id) }
| some (Except.ok r) => r
| some (Except.error e) => { toResult id with error := some e }

/-- Modelled from the spec: `backend.fetch_all` — the concurrent
fan-out gathers one wrapped per-provider outcome per input id, keeping
input order (the sequential reassembly of `asyncio.gather`'s
order-preserving join). -/
def fetch_all (reg : Registry) (ids : List String) : List ProviderResult :=
ids.map (fetch_one reg)

/-- `providers/copilot_oauth.py` `load_credentials`: the stored record,
provided it has a truthy `access` field. -/
def copilotLoadCredentials (st : AuthState) : Option Record :=
match load_provider st "github-copilot" with
| none => none
| some creds => if truthy (lookupField creds "access") then some creds else none

/-- Modelled from the spec: `providers/subscription/codex.py`
`load_credentials` (absent from the source tree) — a stored record
lacking the required `accountId` is treated as absent, per the §3
invariant and `test_load_requires_account_id`. -/
def codexLoadCredentials (st : AuthState) : Option Record :=
match load_provider st "openai-codex" with
| none => none
| some creds => if truthy (lookupField creds "accountId") then some creds else none

/-- The credential record built by the Copilot device flow on success
(`providers/copilot_oauth.py` `interactive_login`): a long-lived opaque
token with no `expires` and no refresh token. -/
def copilotStoredCreds (token : String) : Record :=
[("type", JVal.str "oauth"), ("access", JVal.str token)]

/-- A configuration-file setting value: JSON string or number. -/
inductive SettingVal where
| str (s : String)
| num (q : ℚ)
deriving DecidableEq

/-- Digit-string accumulation for `float(...)` on a plain decimal. -/
def parseDigitsAux : List Char → Nat → Option Nat
| [], acc => some acc
| c :: cs, acc =>
  if c.isDigit then parseDigitsAux cs (acc * 10 + (c.toNat - 48)) else none

/-- A non-empty run of decimal digits, as a natural number. -/
def parseDigits (cs : List Char) : Option Nat :=
if cs = [] then none else parseDigitsAux cs 0

/-- Split a character list at the first decimal point. -/
def splitDot : List Char → List Char × Option (List Char)
| [] => ([], none)
| c :: rest =>
  if c = '.' then ([], some rest)
  else
    let p := splitDot rest
    (c :: p.1, p.2)

/-- Modelled from the spec: Python `float(s)` on the plain decimal
strings the budget setting can hold — optional sign, digits, optional
fractional part; anything else (e.g. `"abc"`) fails. -/
def parseNumStr (s : String) : Option ℚ :=
let signed : Bool × List Char :=
  match s.data with
  | '-' :: rest => (true, rest)
  | '+' :: rest => (false, rest)
  | cs => (false, cs)
let mag : Option ℚ :=
  match splitDot signed.2 with
  | (ip, none) => (parseDigits ip).map (fun n => (n : ℚ))
  | (ip, some fp) =>
    if ip = [] then
      (parseDigits fp).map (fun m => (m : ℚ) / (10 : ℚ) ^ fp.length)
    else if fp = [] then
      (parseDigits ip).map (fun n => (n : ℚ))
    else
      match parseDigits ip, parseDigits fp with
      | some n, some m => some ((n : ℚ) + (m : ℚ) / (10 : ℚ) ^ fp.length)
      | _, _ => none
mag.map (fun q => if signed.1 then -q else q)

/-- Modelled from the spec: coercion of the `monthly_budget` setting —
a number is used as-is, a string goes through `float(...)`. -/
def coerceBudget : SettingVal → Option ℚ
| SettingVal.num q => some q
| SettingVal.str s => parseNumStr s

/-- Modelled from the spec: the budget mapping of the API-billing
`_fetch` (`providers/api/openai.py` / `anthropic.py` are absent from
the source tree) — `used_percent = 100 * spend / monthly_budget` when
the budget parses as a positive number, otherwise `used_percent` and
`cost.limit` are both forced to 0 (budget disabled, not an error). -/
def apiBudgetResult (provider_id : String) (spend : ℚ) (monthly_budget : SettingVal) :
    ProviderResult :=
let b : ℚ :=
  match coerceBudget monthly_budget with
  | some q => if 0 < q then q else 0
  | none => 0
let pct : ℚ := if 0 < b then 100 * spend / b else 0
{ toResult provider_id with
  primary := some { used_percent := pct },
  cost := some { used := spend, limit := b } }

/-- One JSON body returned by GitHub's access-token endpoint during
device-flow polling (`providers/copilot_oauth.py`). -/
structure PollResp where
  error : Option String := none
  error_description : Option String := none
  access_token : Option String := none
deriving DecidableEq

/-- The tail of one poll iteration of `_poll_for_token`: after the
`error` checks fall through, a truthy `access_token` returns the token
and anything else loops again. -/
def pollTokenCheck (cont : Option (Except String String)) :
    Option String → Option (Except String String)
| some tok => if tok = "" then cont else some (Except.ok tok)
| none => cont

/-- `_poll_for_token` from `providers/copilot_oauth.py` (the identical
loop also appears in `providers/subscription/copilot_login.py`),
embedded over the finite list of JSON bodies the endpoint serves:
while the monotonic clock is before the deadline, sleep `interval`
seconds, read the next body and dispatch on `error` /
`access_token` exactly as the source does; `none` means the served
bodies ran out before the loop settled. -/
def pollFrom (deadline : ℚ) (t : ℚ) (interval : Nat) :
    List PollResp → Option (Except String String)
| [] =>
  if t < deadline then none
  else some (Except.error "Timed out waiting for authorization.")
| resp :: rest =>
  if t < deadline then
    let t' := t + interval
    match resp.error with
    | some "authorization_pending" => pollFrom deadline t' interval rest
    | some "slow_down" => pollFrom deadline t' (min (interval + 5) 30) rest
    | some "expired_token" =>
      some (Except.error "Device code expired — please try again.")
    | some e =>
      if e = "" then pollTokenCheck (pollFrom deadline t' interval rest) resp.access_token
      else
        some (Except.error ("GitHub OAuth error: " ++ (resp.error_description.getD e)))
    | none => pollTokenCheck (pollFrom deadline t' interval rest) resp.access_token
  else some (Except.error "Timed out waiting for authorization.")

/-- `_poll_for_token` entered at its call site: clock starts at 0 and
the deadline is the `timeout` argument, whose default is 300.0 s. -/
def pollForToken (interval : Nat) (timeout : ℚ) (responses : List PollResp) :
    Option (Except String String) :=
pollFrom timeout 0 interval responses

/-- Default wall-clock deadline of `_poll_for_token`. -/
def POLL_DEFAULT_TIMEOUT : ℚ := 300

/-- Python `round` (banker's rounding — half to even), used by
`UsageBar.render`. -/
def pyRound (q : ℚ) : Int :=
if q - ⌊q⌋ = 1 / 2 then (if Even ⌊q⌋ then ⌊q⌋ else ⌊q⌋ + 1) else round q

/-- `UsageBar.MIN_BAR_WIDTH` from `widgets/usage_bar.py`. -/
def MIN_BAR_WIDTH : Int := 10

/-- `UsageBar.__init__` from `widgets/usage_bar.py`: the stored
percentage `self._used = max(0.0, min(100.0, used_percent))`. -/
def usageBarUsed (used_percent : ℚ) : ℚ :=
max 0 (min 100 used_percent)

/-- `UsageBar.render` bar width: `max(MIN_BAR_WIDTH, size.width -
overhead)`, with the label/suffix-dependent fixed overhead abstracted
as an integer parameter. -/
def usageBarWidth (widget_width overhead : Int) : Int :=
max MIN_BAR_WIDTH (widget_width - overhead)

/-- `UsageBar.render` filled-cell count: `round((pct / 100.0) *
bar_width)` clamped by `max(0, min(bar_width, filled))`. -/
def usageBarFilled (used_percent : ℚ) (bar_width : Int) : Int :=
max 0 (min bar_width (pyRound (usageBarUsed used_percent / 100 * bar_width)))

/-- Looking up the key just written by the merge step of
`save_provider` returns the merged record. -/
lemma alookup_setEntry {β : Type} (d : List (String × β)) (k : String) (v : β) :
    alookup (setEntry d k v) k = some v := by
induction d with
| nil => simp [setEntry, alookup]
| cons hd tl ih =>
  obtain ⟨k', v'⟩ := hd
  by_cases hk : k' = k
  · simp [setEntry, hk, alookup]
  · simp [setEntry, hk, alookup, ih]

/-- C10: the stored percentage of `UsageBar` is clamped into [0, 100]
for every constructor input, and in every render the filled-cell count
lies between 0 and the bar width inclusive, so the bar never overflows
or underflows. -/
theorem usage_bar_clamped (used_percent : ℚ) (widget_width overhead : Int) :
    0 ≤ usageBarUsed used_percent ∧ usageBarUsed used_percent ≤ 100 ∧
    0 ≤ usageBarFilled used_percent (usageBarWidth widget_width overhead) ∧
    usageBarFilled used_percent (usageBarWidth widget_width overhead) ≤
      usageBarWidth widget_width overhead := by
refine ⟨le_max_left _ _, ?_, le_max_left _ _, ?_⟩
· exact max_le (by norm_num) (min_le_left _ _)
· have hbw : (0 : Int) ≤ usageBarWidth widget_width overhead :=
    le_trans (by norm_num [MIN_BAR_WIDTH]) (le_max_left _ _)
  exact max_le hbw (min_le_left _ _)

/-- C3: for every provider id with no registered fetcher, `fetch_one`
returns a result whose `provider_id` is the given id and whose `error`
is `"Unknown provider: <id>"`, independent of any fetcher (no I/O). -/
theorem fetch_one_unknown_provider (reg : Registry) (id : String)
    (h : reg id = none) :
    (fetch_one reg id).provider_id = id ∧
    (fetch_one reg id).error = some ("Unknown provider: " ++ id) ∧
    fetch_one reg id = { toResult id with error := some ("Unknown provider: " ++ id) } := by
refine ⟨?_, ?_, ?_⟩ <;> simp [fetch_one, h, toResult]

theorem fetch_one_unknown_provider_witness :
    (fetch_one (fun _ => none) "does-not-exist").provider_id = "does-not-exist" ∧
    (fetch_one (fun _ => none) "does-not-exist").error =
      some "Unknown provider: does-not-exist" := by
have h := fetch_one_unknown_provider (fun _ => none) "does-not-exist" rfl
exact ⟨h.1, by rw [h.2.1]; rfl⟩

/-- C2: `fetch_all` on an explicitly empty id list returns the empty
sequence for every registry (so no fetcher is ever consulted), and for
every input list the i-th output is the wrapped outcome for the i-th
input id — output order equals input order. -/
theorem fetch_all_empty_and_input_order (reg : Registry) (ids : List String)
    (i : Nat) (hi : i < ids.length) :
    (∀ reg2 : Registry, fetch_all reg2 [] = []) ∧
    (fetch_all reg ids).length = ids.length ∧
    (fetch_all reg ids)[i]? = some (fetch_one reg (ids.get ⟨i, hi⟩)) := by
refine ⟨fun _ => rfl, by simp [fetch_all], ?_⟩
simp [fetch_all, List.getElem?_eq_getElem hi]

theorem fetch_all_empty_and_input_order_witness :
    fetch_all (fun _ => none) [] = [] ∧
    (fetch_all (fun _ => none) ["codex", "claude"])[0]? =
      some (fetch_one (fun _ => none) "codex") := by
have h := fetch_all_empty_and_input_order (fun _ => none) ["codex", "claude"] 0 (by decide)
exact ⟨h.1 _, h.2.2⟩

/-- C1: in `fetch_all`, a fetcher that raises yields that provider's
result with `error` equal to the exception message, a fetcher that
succeeds has its result returned unchanged, the output stays aligned
with the input ids, and — the return type being a plain result list —
no exception propagates to the caller. -/
theorem fetch_all_isolates_provider_errors (reg : Registry) (ids : List String)
    (i : Nat) (hi : i < ids.length) :
    (fetch_all reg ids).length = ids.length ∧
    (∀ e, reg (ids.get ⟨i, hi⟩) = some (Except.error e) →
      (fetch_all reg ids)[i]? =
        some { toResult (ids.get ⟨i, hi⟩) with error := some e }) ∧
    (∀ r, reg (ids.get ⟨i, hi⟩) = some (Except.ok r) →
      (fetch_all reg ids)[i]? = some r) := by
refine ⟨by simp [fetch_all], ?_, ?_⟩
· intro e he
  simp only [List.get_eq_getElem] at he
  simp [fetch_all, List.getElem?_eq_getElem hi, fetch_one, he]
· intro r hr
  simp only [List.get_eq_getElem] at hr
  simp [fetch_all, List.getElem?_eq_getElem hi, fetch_one, hr]

theorem fetch_all_isolates_provider_errors_witness :
    (fetch_all
        (fun id =>
          if id = "codex" then some (Except.ok (toResult "codex"))
          else if id = "claude" then some (Except.error "boom") else none)
        ["codex", "claude"])[1]? =
      some { toResult "claude" with error := some "boom" } ∧
    (fetch_all
        (fun id =>
          if id = "codex" then some (Except.ok (toResult "codex"))
          else if id = "claude" then some (Except.error "boom") else none)
        ["codex", "claude"])[0]? =
      some (toResult "codex") := by
have h1 := fetch_all_isolates_provider_errors
  (fun id =>
    if id = "codex" then some (Except.ok (toResult "codex"))
    else if id = "claude" then some (Except.error "boom") else none)
  ["codex", "claude"] 1 (by decide)
have h0 := fetch_all_isolates_provider_errors
  (fun id =>
    if id = "codex" then some (Except.ok (toResult "codex"))
    else if id = "claude" then some (Except.error "boom") else none)
  ["codex", "claude"] 0 (by decide)
exact ⟨h1.2.1 "boom" (by rfl), h0.2.2 (toResult "codex") (by rfl)⟩

/-- A concrete subscription provider with no available credentials,
used to evaluate the shared fetch lifecycle at the id `"claude"`. -/
def claudeNoCreds : SubscriptionProvider Unit :=
{ provider_id := "claude"
  get_credentials := none
  «_fetch» := fun _ => Except.ok (toResult "claude") }

/-- C4 (counterexample): when credential resolution yields nothing, the
lifecycle's error is not the claimed string
"No credentials found — run login for claude." — `base.py` formats
"No credentials found. Run \x60llmeter --login claude\x60 to authenticate."
instead. -/
theorem call_no_credentials_message_counterexample :
    ¬ ((SubscriptionProvider.call claudeNoCreds).error =
        some "No credentials found — run login for claude.") := by
decide

/-- C4 (amended): when credential resolution yields no credentials, the
shared lifecycle `SubscriptionProvider.__call__` returns the blank
descriptor result whose `error` is the provider's no-credentials
message — by default "No credentials found. Run \x60llmeter --login
<id>\x60 to authenticate." — with every usage field unset. -/
theorem call_without_credentials {α : Type} (p : SubscriptionProvider α)
    (h : p.get_credentials = none) :
    p.call = { toResult p.provider_id with
               error := some (no_credentials_error p.provider_id) } ∧
    p.call.error = some ("No credentials found. Run `llmeter --login " ++
      p.provider_id ++ "` to authenticate.") ∧
    p.call.primary = none ∧ p.call.secondary = none ∧ p.call.tertiary = none ∧
    p.call.cost = none ∧ p.call.credits = none := by
refine ⟨?_, ?_, ?_, ?_, ?_, ?_, ?_⟩ <;>
  simp [SubscriptionProvider.call, h, toResult, no_credentials_error]

theorem call_without_credentials_witness :
    (SubscriptionProvider.call claudeNoCreds).error =
      some "No credentials found. Run `llmeter --login claude` to authenticate." ∧
    (SubscriptionProvider.call claudeNoCreds).primary = none ∧
    (SubscriptionProvider.call claudeNoCreds).cost = none := by
have h := call_without_credentials claudeNoCreds rfl
exact ⟨by rw [h.2.1]; rfl, h.2.2.1, h.2.2.2.2.2.1⟩

/-- C5: for a budget-based (API-key) fetch with observed spend `s`, a
`monthly_budget` that coerces to a positive number `b` yields
`primary.used_percent = 100 * s / b` and `cost.limit = b`; an
unparseable or non-positive budget yields `used_percent = 0` and
`cost.limit = 0`; neither case is an error result. -/
theorem api_budget_coercion (provider_id : String) (s : ℚ) (v : SettingVal) :
    (∀ b, coerceBudget v = some b → 0 < b →
      (apiBudgetResult provider_id s v).primary.map UsageWindow.used_percent =
          some (100 * s / b) ∧
        (apiBudgetResult provider_id s v).cost.map CostInfo.limit = some b) ∧
    ((coerceBudget v = none ∨ ∃ b, coerceBudget v = some b ∧ b ≤ 0) →
      (apiBudgetResult provider_id s v).primary.map UsageWindow.used_percent =
          some 0 ∧
        (apiBudgetResult provider_id s v).cost.map CostInfo.limit = some 0) ∧
    (apiBudgetResult provider_id s v).error = none := by
refine ⟨?_, ?_, by simp [apiBudgetResult, toResult]⟩
· intro b hb hpos
  simp [apiBudgetResult, hb, hpos, toResult]
· rintro (hn | ⟨b, hb, hle⟩)
  · simp [apiBudgetResult, hn, toResult]
  · have : ¬ 0 < b := not_lt.mpr hle
    simp [apiBudgetResult, hb, this, toResult]

theorem api_budget_coercion_witness :
    (apiBudgetResult "openai-api" 10 (SettingVal.str "50")).primary.map
        UsageWindow.used_percent = some 20 ∧
    (apiBudgetResult "openai-api" 10 (SettingVal.str "50")).cost.map
        CostInfo.limit = some 50 ∧
    (apiBudgetResult "openai-api" 10 (SettingVal.str "abc")).primary.map
        UsageWindow.used_percent = some 0 ∧
    (apiBudgetResult "openai-api" 10 (SettingVal.str "abc")).cost.map
        CostInfo.limit = some 0 ∧
    (apiBudgetResult "anthropic-api" (25 / 2) (SettingVal.num (-1))).primary.map
        UsageWindow.used_percent = some 0 := by
have h50 := (api_budget_coercion "openai-api" 10 (SettingVal.str "50")).1 50
  (by decide) (by norm_num)
have habc := (api_budget_coercion "openai-api" 10 (SettingVal.str "abc")).2.1
  (Or.inl (by decide))
have hneg := (api_budget_coercion "anthropic-api" (25 / 2) (SettingVal.num (-1))).2.1
  (Or.inr ⟨-1, rfl, by norm_num⟩)
refine ⟨by rw [h50.1]; norm_num, h50.2, habc.1, habc.2, hneg.1⟩

/-- C6: `is_expired` is true exactly when `expires` is missing,
malformed (not an integer), or at most the current time in
milliseconds; in particular an empty record is expired, `expires = 0`
is expired, and `expires = now + 3600000` is not. -/
theorem is_expired_spec (now_ms : Int) (rec : Record) (hnow : 0 ≤ now_ms) :
    (is_expired now_ms rec = true ↔
      lookupField rec "expires" = none ∨
      (∃ v, lookupField rec "expires" = some v ∧ ∀ e : Int, v ≠ JVal.num e) ∨
      (∃ e : Int, lookupField rec "expires" = some (JVal.num e) ∧ e ≤ now_ms)) ∧
    is_expired now_ms ([] : Record) = true ∧
    is_expired now_ms [("expires", JVal.num 0)] = true ∧
    is_expired now_ms [("expires", JVal.num (now_ms + 3600000))] = false := by
refine ⟨?_, rfl, ?_, ?_⟩
· unfold is_expired
  cases hl : lookupField rec "expires" with
  | none => simp [hl]
  | some v =>
    cases v with
    | str s =>
      simp only [hl]
      constructor
      · intro _
        exact Or.inr (Or.inl ⟨JVal.str s, rfl, fun e => by simp⟩)
      · intro _; trivial
    | boolean b =>
      simp only [hl]
      constructor
      · intro _
        exact Or.inr (Or.inl ⟨JVal.boolean b, rfl, fun e => by simp⟩)
      · intro _; trivial
    | null =>
      simp only [hl]
      constructor
      · intro _
        exact Or.inr (Or.inl ⟨JVal.null, rfl, fun e => by simp⟩)
      · intro _; trivial
    | num e =>
      simp only [hl, decide_eq_true_eq]
      constructor
      · intro h
        exact Or.inr (Or.inr ⟨e, rfl, h⟩)
      · rintro (hc | ⟨v, hv, hne⟩ | ⟨e2, he2, hle⟩)
        · exact absurd hc (by simp)
        · exact absurd (hne e) (by simp [Option.some_inj.mp hv])
        · have h3 : e = e2 := JVal.num.inj (Option.some_inj.mp he2)
          omega
· simp [is_expired, lookupField, alookup, hnow]
· simp [is_expired, lookupField, alookup]

theorem is_expired_spec_witness :
    is_expired 1700000000000 ([] : Record) = true ∧
    is_expired 1700000000000 [("expires", JVal.num 0)] = true ∧
    is_expired 1700000000000 [("expires", JVal.num (1700000000000 + 3600000))] = false := by
have h := is_expired_spec 1700000000000 ([] : Record) (by norm_num)
exact ⟨h.2.1, h.2.2.1, h.2.2.2⟩

/-- C7 (counterexample): save-then-load does not round-trip every
credential record — the generic `load_provider` call site rejects a
record whose `type` is not `"oauth"` (per
`test_load_provider_rejects_non_oauth`), so an `api-key`-typed record
written by `save_provider` loads back as absent. -/
theorem save_load_round_trip_counterexample :
    load_provider
        (save_provider emptyAuthState "anthropic"
          [("type", JVal.str "api-key"), ("key", JVal.str "sk-1")])
        "anthropic" ≠
      some [("type", JVal.str "api-key"), ("key", JVal.str "sk-1")] := by
decide

/-- C7 (amended): for every `oauth`-typed credential record, saving via
`save_provider` and loading via `load_provider` returns the record with
every field — provider-specific extras such as `accountId` included —
unchanged, and after every save the credential file's permission mode
is owner-read/write-only 0600. -/
theorem save_load_round_trip_oauth (st : AuthState) (id : String) (rec : Record)
    (h : lookupField rec "type" = some (JVal.str "oauth")) :
    load_provider (save_provider st id rec) id = some rec ∧
    (save_provider st id rec).mode = some 384 := by
refine ⟨?_, rfl⟩
unfold load_provider save_provider
simp [alookup_setEntry, h]

theorem save_load_round_trip_oauth_witness :
    load_provider
        (save_provider emptyAuthState "openai-codex"
          [("type", JVal.str "oauth"), ("access", JVal.str "a2"),
           ("refresh", JVal.str "r2"), ("expires", JVal.num 9999999999999),
           ("accountId", JVal.str "x")])
        "openai-codex" =
      some [("type", JVal.str "oauth"), ("access", JVal.str "a2"),
            ("refresh", JVal.str "r2"), ("expires", JVal.num 9999999999999),
            ("accountId", JVal.str "x")] ∧
    (save_provider emptyAuthState "openai-codex"
        [("type", JVal.str "oauth"), ("access", JVal.str "a2"),
         ("refresh", JVal.str "r2"), ("expires", JVal.num 9999999999999),
         ("accountId", JVal.str "x")]).mode = some 384 :=
save_load_round_trip_oauth emptyAuthState "openai-codex"
  [("type", JVal.str "oauth"), ("access", JVal.str "a2"),
   ("refresh", JVal.str "r2"), ("expires", JVal.num 9999999999999),
   ("accountId", JVal.str "x")] (by decide)

/-- C8: a stored record lacking a provider-required field is treated
exactly as if no credentials were stored — Copilot's `load_credentials`
returns `none` without a truthy `access`, the Codex loader returns
`none` without a truthy `accountId`, and both also return `none` on the
empty store. -/
theorem load_credentials_requires_required_fields (st : AuthState) (rec : Record) :
    (truthy (lookupField rec "access") = false →
      copilotLoadCredentials (save_provider st "github-copilot" rec) = none) ∧
    (truthy (lookupField rec "accountId") = false →
      codexLoadCredentials (save_provider st "openai-codex" rec) = none) ∧
    copilotLoadCredentials emptyAuthState = none ∧
    codexLoadCredentials emptyAuthState = none := by
refine ⟨?_, ?_, rfl, rfl⟩
· intro h
  unfold copilotLoadCredentials load_provider save_provider
  by_cases ht : lookupField rec "type" = some (JVal.str "oauth")
  · simp [alookup_setEntry, ht, h]
  · simp [alookup_setEntry, ht]
· intro h
  unfold codexLoadCredentials load_provider save_provider
  by_cases ht : lookupField rec "type" = some (JVal.str "oauth")
  · simp [alookup_setEntry, ht, h]
  · simp [alookup_setEntry, ht]

theorem load_credentials_requires_required_fields_witness :
    copilotLoadCredentials
        (save_provider emptyAuthState "github-copilot"
          [("type", JVal.str "oauth"), ("refresh", JVal.str "r")]) = none ∧
    codexLoadCredentials
        (save_provider emptyAuthState "openai-codex"
          [("type", JVal.str "oauth"), ("access", JVal.str "tok"),
           ("refresh", JVal.str "ref"), ("expires", JVal.num 0)]) = none := by
have h1 := load_credentials_requires_required_fields emptyAuthState
  [("type", JVal.str "oauth"), ("refresh", JVal.str "r")]
have h2 := load_credentials_requires_required_fields emptyAuthState
  [("type", JVal.str "oauth"), ("access", JVal.str "tok"),
   ("refresh", JVal.str "ref"), ("expires", JVal.num 0)]
exact ⟨h1.1 (by decide), h2.2.1 (by decide)⟩

/-- C9: the device-flow poll loop — before the deadline, a truthy
`access_token` response returns the token (and the record then stored
has no `expires` field: a non-expiring opaque token);
`error=authorization_pending` polls again unchanged; `error=slow_down`
polls again with the interval increased by 5 and capped at 30;
`error=expired_token` fails terminally; any other non-empty `error`
fails with the vendor-supplied description; and once the wall-clock
deadline (default `POLL_DEFAULT_TIMEOUT = 300` s) has elapsed the loop
fails with the timeout error. -/
theorem poll_for_token_protocol (d t : ℚ) (i : Nat) (rest : List PollResp)
    (e desc tok : String) (r : PollResp) :
    (t < d → tok ≠ "" →
      pollFrom d t i ({ access_token := some tok } :: rest) = some (Except.ok tok)) ∧
    (t < d →
      pollFrom d t i ({ error := some "authorization_pending" } :: rest) =
        pollFrom d (t + i) i rest) ∧
    (t < d →
      pollFrom d t i ({ error := some "slow_down" } :: rest) =
        pollFrom d (t + i) (min (i + 5) 30) rest ∧ min (i + 5) 30 ≤ 30) ∧
    (t < d →
      pollFrom d t i ({ error := some "expired_token" } :: rest) =
        some (Except.error "Device code expired — please try again.")) ∧
    (t < d → e ≠ "authorization_pending" → e ≠ "slow_down" →
      e ≠ "expired_token" → e ≠ "" →
      pollFrom d t i ({ error := some e, error_description := some desc } :: rest) =
        some (Except.error ("GitHub OAuth error: " ++ desc))) ∧
    (¬ t < d →
      pollFrom d t i (r :: rest) =
          some (Except.error "Timed out waiting for authorization.") ∧
        pollFrom d t i [] =
          some (Except.error "Timed out waiting for authorization.")) ∧
    POLL_DEFAULT_TIMEOUT = 300 ∧
    lookupField (copilotStoredCreds tok) "expires" = none := by
refine ⟨?_, ?_, ?_, ?_, ?_, ?_, rfl, rfl⟩
· intro hlt hne
  simp [pollFrom, if_pos hlt, pollTokenCheck, hne]
· intro hlt
  simp [pollFrom, if_pos hlt]
· intro hlt
  exact ⟨by simp [pollFrom, if_pos hlt], min_le_right _ _⟩
· intro hlt
  simp [pollFrom, if_pos hlt]
· intro hlt h1 h2 h3 h4
  simp only [pollFrom, if_pos hlt]
  split <;> simp_all
· intro hge
  exact ⟨by simp [pollFrom, if_neg hge], by simp [pollFrom, if_neg hge]⟩

theorem poll_for_token_protocol_witness :
    pollFrom 300 0 5 [{ access_token := some "gho_tok" }] =
      some (Except.ok "gho_tok") ∧
    pollFrom 300 0 5 [{ error := some "authorization_pending" }] =
      pollFrom 300 (0 + 5) 5 [] ∧
    pollFrom 300 0 5 [{ error := some "slow_down" }] =
      pollFrom 300 (0 + 5) (min (5 + 5) 30) [] ∧
    pollFrom 300 0 5 [{ error := some "expired_token" }] =
      some (Except.error "Device code expired — please try again.") ∧
    pollFrom 300 0 5
        [{ error := some "access_denied", error_description := some "user denied" }] =
      some (Except.error "GitHub OAuth error: user denied") ∧
    pollFrom 300 301 5 [{ error := some "authorization_pending" }] =
      some (Except.error "Timed out waiting for authorization.") ∧
    lookupField (copilotStoredCreds "gho_tok") "expires" = none := by
have h := poll_for_token_protocol 300 0 5 [] "access_denied" "user denied" "gho_tok"
  { error := some "authorization_pending" }
have h2 := poll_for_token_protocol 300 301 5 [] "x" "y" "tok"
  { error := some "authorization_pending" }
refine ⟨h.1 (by norm_num) (by decide), h.2.1 (by norm_num),
  (h.2.2.1 (by norm_num)).1, h.2.2.2.1 (by norm_num),
  h.2.2.2.2.1 (by norm_num) (by decide) (by decide) (by decide) (by decide),
  (h2.2.2.2.2.2.1 (by norm_num)).1, h.2.2.2.2.2.2.2⟩

end Llmeter
